import Mathlib

/-!
Formal model of the firmware flashing core in host/lib/write_firmware.py.

The Python source is embedded shallowly: byte buffers are lists of
naturals, Python str values used as text are Lean strings, arbitrary
precision Python integers are Int with explicit two's-complement
bitwise operations, and code that raises exceptions is modelled with
Except.  External collaborators (the tools runner, the fdt accessor,
the output object, the file system) enter as explicit parameters,
exactly at the interface the source uses them.
-/

set_option maxRecDepth 4000

deriving instance DecidableEq for Except

/-- Single-quote character as a one-character string; several source error
messages quote names with it. -/
def sglq : String := String.mk [Char.ofNat 39]

/-- Does the list start with the given pattern of characters? -/
def startsWithL : List Char → List Char → Bool
  | [], _ => true
  | _ :: _, [] => false
  | p :: ps, c :: cs => (p == c) && startsWithL ps cs

/-- Does the pattern occur contiguously anywhere in the list? -/
def hasSub (pat : List Char) : List Char → Bool
  | [] => startsWithL pat []
  | c :: cs => startsWithL pat (c :: cs) || hasSub pat cs

/-- Substring membership on strings; models the Python expression
pattern in text. -/
def strHas (text pat : String) : Bool := hasSub pat.toList text.toList

/-- Byte content of a Python 2 str holding binary data. -/
def strBytes (s : String) : List Nat := s.toList.map Char.toNat

/-- Does the byte list start with the given byte pattern? -/
def startsWithB : List Nat → List Nat → Bool
  | [], _ => true
  | _ :: _, [] => false
  | p :: ps, c :: cs => (p == c) && startsWithB ps cs

/-- Fuelled scan counting non-overlapping occurrences left to right. -/
def subCountGo (pat : List Nat) : Nat → List Nat → Nat
  | 0, _ => 0
  | _, [] => 0
  | fuel + 1, c :: cs =>
    if startsWithB pat (c :: cs) then
      1 + subCountGo pat fuel (List.drop (pat.length - 1) cs)
    else subCountGo pat fuel cs

/-- Number of non-overlapping occurrences of the pattern, scanning left to
right; models len(re.findall(pat, data)) for a pattern free of regex
metacharacters, as the fixed marker zsHEXYla is. -/
def subCount (pat data : List Nat) : Nat := subCountGo pat data.length data

/-- Fuelled scan replacing non-overlapping occurrences left to right. -/
def replaceAllGo (pat rep : List Nat) : Nat → List Nat → List Nat
  | 0, l => l
  | _, [] => []
  | fuel + 1, c :: cs =>
    if startsWithB pat (c :: cs) then
      rep ++ replaceAllGo pat rep fuel (List.drop (pat.length - 1) cs)
    else c :: replaceAllGo pat rep fuel cs

/-- Replacement of every non-overlapping occurrence, scanning left to
right; models re.sub(pat, rep, data) for a metacharacter-free pattern. -/
def replaceAll (pat rep data : List Nat) : List Nat :=
  replaceAllGo pat rep data.length data

/-- Lowercase hexadecimal digits of a natural, most significant first. -/
def hexDigits (n : Nat) : List Char := Nat.toDigits 16 n

/-- Models the Python format %#x applied to a non-negative integer. -/
def pyHexAlt (n : Nat) : String := "0x" ++ String.mk (hexDigits n)

/-- Models the Python format %#08x applied to a non-negative integer:
zero-padded to total width 8 counting the 0x marker. -/
def pyHexAlt08 (n : Nat) : String :=
  "0x" ++ String.mk (List.replicate (6 - (hexDigits n).length) '0' ++ hexDigits n)

/-- Models the Python format %08x applied to a non-negative integer:
zero-padded to width at least 8, without the 0x marker. -/
def pyHex08 (n : Nat) : String :=
  String.mk (List.replicate (8 - (hexDigits n).length) '0' ++ hexDigits n)

/-- Two's-complement bitwise AND on arbitrary-precision integers, the
semantics of the Python operator a and-bitwise b.  Written with the
kernel-reducible Nat operations; it agrees with Mathlib Int.land
(lemma pyAnd_eq_land below). -/
def pyAnd : Int → Int → Int
  | Int.ofNat m, Int.ofNat n => Int.ofNat (m &&& n)
  | Int.ofNat m, Int.negSucc n => Int.ofNat (m ^^^ (m &&& n))
  | Int.negSucc m, Int.ofNat n => Int.ofNat (n ^^^ (n &&& m))
  | Int.negSucc m, Int.negSucc n => Int.negSucc (m ||| n)

/-- Arbitrary-precision bitwise complement, the semantics of Python ~x. -/
def pyNot (x : Int) : Int := -x - 1

/-- RoundUp from write_firmware.py lines 13-23:
(value + boundary - 1) bitand bitnot (boundary - 1), on Python integers. -/
def RoundUp (value boundary : Int) : Int :=
  pyAnd (value + boundary - 1) (pyNot (boundary - 1))

/-- RoundUp restricted to the natural arguments the flashing code feeds it. -/
def roundUpN (value boundary : Nat) : Nat :=
  (RoundUp (Int.ofNat value) (Int.ofNat boundary)).toNat

/-- One bit step of the reflected CRC-32 used by binascii.crc32 and zlib:
polynomial 0xedb88320. -/
def crcBit (c : Nat) : Nat :=
  if c % 2 = 1 then (c / 2) ^^^ 0xedb88320 else c / 2

/-- One byte step of the reflected CRC-32. -/
def crcByte (c b : Nat) : Nat :=
  crcBit (crcBit (crcBit (crcBit (crcBit (crcBit (crcBit (crcBit (c ^^^ (b % 256)))))))))

/-- CRC-32 of a byte buffer, the checksum binascii.crc32 computes:
initial value 0xffffffff, final complement, reflected polynomial. -/
def crc32 (data : List Nat) : Nat :=
  (data.foldl crcByte 0xffffffff) ^^^ 0xffffffff

/-- binascii.crc32 in Python 2 returns the CRC as a signed 32-bit value. -/
def pyCrc32 (data : List Nat) : Int :=
  if crc32 data < 2 ^ 31 then Int.ofNat (crc32 data)
  else Int.ofNat (crc32 data) - 2 ^ 32

/-- checksum = binascii.crc32(payload_data) bitand 0xffffffff
(write_firmware.py line 173). -/
def checksumOf (data : List Nat) : Nat :=
  (pyAnd (pyCrc32 data) (Int.ofNat 0xffffffff)).toNat

/-- Fixed load-address marker replace_me = zsHEXYla (line 79). -/
def replaceMe : String := "zsHEXYla"

/-- Command list built by WriteFirmware._GetFlashScript (lines 56-145),
before joining.  Every string literal is copied verbatim from the
source; the percent formats are rendered by the pyHex helpers. -/
def getFlashCmds (payload_size : Nat) (update verify : Bool) (boot_type : String)
    (checksum : Nat) (bus : String) : List String :=
  let page_size : Nat := if boot_type = "sdmmc" then 512 else 4096
  let update := if boot_type ≠ "spi" then false else update
  let cmds : List String := [
    "setenv address       0x" ++ replaceMe,
    "setenv firmware_size " ++ pyHexAlt payload_size,
    "setenv length        " ++ pyHexAlt (roundUpN payload_size page_size),
    "setenv blocks   " ++ pyHexAlt (roundUpN payload_size page_size / page_size),
    "setenv _crc    \"crc32 -v ${address} ${firmware_size} " ++ (pyHexAlt08 checksum ++ "\""),
    "setenv _clear  \"echo Clearing RAM; mw.b     ${address} 0 ${length}\""]
  let cmds := cmds ++
    (if boot_type = "nand" then [
      "setenv _init   \"echo Init NAND;  nand info\"",
      "setenv _erase  \"echo Erase NAND; nand erase            0 ${length}\"",
      "setenv _write  \"echo Write NAND; nand write ${address} 0 ${length}\"",
      "setenv _read   \"echo Read NAND;  nand read  ${address} 0 ${length}\""]
    else if boot_type = "sdmmc" then [
      "setenv _init   \"echo Init EMMC;  mmc rescan            0\"",
      "setenv _erase  \"echo Erase EMMC; \"",
      "setenv _write  \"echo Write EMMC; mmc write 0 ${address} 0 ${blocks} boot1\"",
      "setenv _read   \"echo Read EMMC;  mmc read 0 ${address} 0 ${blocks} boot1\""]
    else [
      "setenv _init   \"echo Init SPI;   sf probe            " ++ (bus ++ "\""),
      "setenv _erase  \"echo Erase SPI;  sf erase            0 ${length}\"",
      "setenv _write  \"echo Write SPI;  sf write ${address} 0 ${length}\"",
      "setenv _read   \"echo Read SPI;   sf read  ${address} 0 ${length}\"",
      "setenv _update \"echo Update SPI; sf update ${address} 0 ${length}\""])
  let cmds := cmds ++ [
    "echo Firmware loaded to ${address}, size ${firmware_size}, length ${length}",
    "if run _crc; then",
    "run _init"]
  let cmds := cmds ++ (if update then ["time run _update"] else ["run _erase", "run _write"])
  let cmds := cmds ++
    (if verify then ["run _clear", "run _read", "run _crc"] else ["echo Skipping verify"])
  cmds ++ ["else", "echo",
    "echo \"** Checksum error on load: please check download tool **\"", "fi"]

/-- WriteFirmware._GetFlashScript: the joined boot command and the marker
the caller must substitute (lines 144-145). -/
def getFlashScript (payload_size : Nat) (update verify : Bool) (boot_type : String)
    (checksum : Nat) (bus : String) : String × String :=
  (String.intercalate ("; ") (getFlashCmds payload_size update verify boot_type checksum bus),
   replaceMe)

/-- Failures raised by WriteFirmware.PrepareFlasher.  The first is the
ValueError of line 201; the second is raised at line 204 when the marker
count is not 1 (the message formatting there names an undefined variable,
so the source in fact raises a NameError at that point, but either way the
call terminates with an exception). -/
inductive PrepError
  | addrLenMismatch (rendered : String)
  | placeholderCount (count : Nat)
deriving DecidableEq

/-- Result of a successful WriteFirmware.PrepareFlasher run: the boot
script, the payload checksum, the substituted configuration bytes, the
payload offset, the load address, the assembled flasher image, and the
Notice messages shown to the operator. -/
structure PrepOut where
  script : String
  checksum : Nat
  fdtData : List Nat
  payloadOffset : Nat
  loadAddress : Nat
  image : List Nat
  notices : List String
deriving DecidableEq

/-- WriteFirmware.PrepareFlasher (lines 147-220).  The fdt accessor is
abstracted by fdtSer, the serialization of the copied fdt once the given
boot command has been stored in it; uboot and payload are the byte
contents of the files the source reads.  The inline alignment computation
of lines 195-196 is the same bit formula as RoundUp with boundary 0x1000. -/
def prepareFlasher (uboot : List Nat) (fdtSer : String → List Nat) (textBase : Nat)
    (payload : List Nat) (update verify : Bool) (boot_type : String) (bus : String) :
    Except PrepError PrepOut :=
  let checksum := checksumOf payload
  let sp := getFlashScript payload.length update verify boot_type checksum bus
  let script := sp.1
  let replace_me := sp.2
  let data := uboot
  let fdt_data := fdtSer script
  let payload_offset := roundUpN (data.length + fdt_data.length) 0x1000
  let load_address := textBase + payload_offset
  let new_str := pyHex08 load_address
  if replace_me.length ≠ new_str.length then
    Except.error (PrepError.addrLenMismatch new_str)
  else if subCount (strBytes replace_me) fdt_data ≠ 1 then
    Except.error (PrepError.placeholderCount (subCount (strBytes replace_me) fdt_data))
  else
    let fdt_data := replaceAll (strBytes replace_me) (strBytes new_str) fdt_data
    let data := data ++ fdt_data
    let data := data ++ List.replicate (payload_offset - data.length) 0
    let data := data ++ payload
    Except.ok {
      script := script,
      checksum := checksum,
      fdtData := fdt_data,
      payloadOffset := payload_offset,
      loadAddress := load_address,
      image := data,
      notices := ["Payload checksum " ++ pyHex08 checksum] }

/-- Outcome of one invocation of the external nvflash command: either it
exits successfully or it raises CmdError with the given message text. -/
inductive AttemptOutcome
  | success
  | failure (msg : String)
deriving DecidableEq

/-- Observable outcome of WriteFirmware._NvidiaFlashImage after the
flasher has been prepared: the returned value or the raised CmdError,
the Notice messages emitted, and how many one-second sleeps ran. -/
structure NvResult where
  result : Except String Bool
  notices : List String
  sleeps : Nat
deriving DecidableEq

/-- Transient pattern the Nvidia retry loop looks for (line 270). -/
def usbNotFound : String := "USB device not found"

/-- Is the nvflash outcome a failure the loop classifies as transient? -/
def transientB : AttemptOutcome → Bool
  | AttemptOutcome.success => false
  | AttemptOutcome.failure m => strHas m usbNotFound

/-- Message text of a failed attempt (unused for successes). -/
def msgOf : AttemptOutcome → String
  | AttemptOutcome.success => ""
  | AttemptOutcome.failure m => m

/-- Notice printed when the flasher upload succeeds (lines 260-261). -/
def dlNotice : String := "Flasher downloaded - please see serial output for progress."

/-- Retry loop body of WriteFirmware._NvidiaFlashImage (lines 254-280).
tty is the stdout_is_tty flag of the output object; run gives the outcome
of the nvflash invocation at each attempt index; lastErr, notices and
sleeps carry the loop state; the final argument is the remaining
attempt budget of the range(10) loop. -/
def nvidiaGo (tty : Bool) (run : Nat → AttemptOutcome) (idx : Nat) (lastErr : Option String)
    (notices : List String) (sleeps : Nat) : Nat → NvResult
  | 0 => { result := Except.ok false, notices := notices, sleeps := sleeps }
  | fuel + 1 =>
    match run idx with
    | AttemptOutcome.success =>
      { result := Except.ok true, notices := notices ++ [dlNotice], sleeps := sleeps }
    | AttemptOutcome.failure m =>
      if tty = false then { result := Except.ok false, notices := notices, sleeps := sleeps }
      else if strHas m usbNotFound = false then
        { result := Except.error ("nvflash failed: " ++ m), notices := notices, sleeps := sleeps }
      else if some m = lastErr then
        nvidiaGo tty run (idx + 1) lastErr notices (sleeps + 1) fuel
      else
        nvidiaGo tty run (idx + 1) (some m) (notices ++ [m]) (sleeps + 1) fuel

/-- WriteFirmware._NvidiaFlashImage from the start of the retry loop:
10 attempts, no last error seen yet. -/
def nvidiaFlash (tty : Bool) (run : Nat → AttemptOutcome) : NvResult :=
  nvidiaGo tty run 0 none [] 0 10

/-- Written from the claim: among a list of transient failure messages,
a Notice appears exactly for the messages that differ from the previous
failure message, the first message always differing from the initial
state. -/
def keepChanges : Option String → List String → List String
  | _, [] => []
  | last, m :: ms =>
    if some m = last then keepChanges last ms else m :: keepChanges (some m) ms

/-- Outcome of one lsusb enumeration query: a matching device is listed,
or the command raises CmdError with some message. -/
inductive ProbeOutcome
  | found
  | failed (msg : String)
deriving DecidableEq

/-- Observable outcome of WriteFirmware._WaitForUSBDevice: the returned
value, the number of enumeration queries issued, and the number of
half-second sleeps that ran. -/
structure ProbeResult where
  found : Bool
  cycles : Nat
  sleeps : Nat
deriving DecidableEq

/-- Did the probe cycle find the device? -/
def foundB : ProbeOutcome → Bool
  | ProbeOutcome.found => true
  | ProbeOutcome.failed _ => false

/-- Polling loop of WriteFirmware._WaitForUSBDevice (lines 295-307):
probe gives the outcome of the lsusb run at each cycle index; the final
argument is the remaining cycle budget of the range(timeout * 2) loop. -/
def waitGo (probe : Nat → ProbeOutcome) (idx cycles sleeps : Nat) : Nat → ProbeResult
  | 0 => { found := false, cycles := cycles, sleeps := sleeps }
  | fuel + 1 =>
    match probe idx with
    | ProbeOutcome.found => { found := true, cycles := cycles + 1, sleeps := sleeps }
    | ProbeOutcome.failed _ => waitGo probe (idx + 1) (cycles + 1) (sleeps + 1) fuel

/-- WriteFirmware._WaitForUSBDevice (lines 282-307) for a given timeout
in seconds. -/
def waitForUSB (probe : Nat → ProbeOutcome) (timeout : Nat) : ProbeResult :=
  waitGo probe 0 0 0 (timeout * 2)

/-- External commands _ExynosFlashImage issues around and inside the
stage loop: the dut-control reset sequence of lines 331-337, one
smdk-usbdl transfer per stage (line 360), and the dut-control release of
the recovery lines in the finally block (lines 362-364). -/
inductive ExtCmd
  | dutControlReset
  | smdkUsbdl (stage : String) (addr : Nat)
  | dutControlFinish
deriving DecidableEq

/-- Failure of a flashing path: an exception escaping PrepareFlasher, or
a CmdError with the given message. -/
inductive FlashErr
  | prep (e : PrepError)
  | cmd (msg : String)
deriving DecidableEq

/-- Boot type _ExynosFlashImage passes to PrepareFlasher (line 325). -/
def exynosBootType : String := "Spi"

/-- Bus argument _ExynosFlashImage passes to PrepareFlasher (line 325). -/
def exynosBus : String := "1:0"

/-- download_list of _ExynosFlashImage (lines 341-345): stage name and
load address; the third file is the prepared flasher image. -/
def exynosDownloadList : List (String × Nat) :=
  [("bl1", 0x02021400), ("bl2", 0x02023400), ("u-boot", 0x43e00000)]

/-- CmdError message for a stage whose probe timed out after the first
stage completed (line 352). -/
def stageStallMsg (name : String) : String :=
  "Stage " ++ sglq ++ name ++ sglq ++ " did not complete"

/-- CmdError message when the board is never seen at all (line 351). -/
def boardNotFoundMsg : String := "Could not find Exynos board on USB port"

/-- Stage loop of _ExynosFlashImage (lines 346-360): for each stage, an
8-cycle (4 second) device probe, then the smdk-usbdl transfer, which may
itself raise.  probes i is the lsusb outcome function for the probe
before stage i; upload i is the outcome of the smdk-usbdl run of stage i
(none for success).  Returns the loop outcome and the transfer commands
actually issued, in order. -/
def exynosGo (probes : Nat → Nat → ProbeOutcome) (upload : Nat → Option String) :
    List (String × Nat) → Nat → Bool → Except String Unit × List ExtCmd
  | [], _, _ => (Except.ok (), [])
  | item :: rest, i, first =>
    if (waitForUSB (probes i) 4).found = false then
      (Except.error (if first then boardNotFoundMsg else stageStallMsg item.1), [])
    else
      match upload i with
      | some e => (Except.error e, [ExtCmd.smdkUsbdl item.1 item.2])
      | none =>
        let r := exynosGo probes upload rest (i + 1) false
        (r.1, ExtCmd.smdkUsbdl item.1 item.2 :: r.2)

/-- Observable outcome of WriteFirmware._ExynosFlashImage: the
PrepareFlasher outcome, the external commands issued in order, and the
returned value or escaping exception. -/
structure ExynosOut where
  prep : Except PrepError PrepOut
  cmds : List ExtCmd
  result : Except FlashErr Bool
deriving DecidableEq

/-- WriteFirmware._ExynosFlashImage (lines 309-368).  PrepareFlasher runs
first with boot type Spi and bus 1:0; if it raises, nothing external
runs.  Otherwise the reset sequence is issued, the stage loop runs inside
try, and the finally block issues the control-line release on every exit
of the loop, after which either the loop error propagates or the method
returns True. -/
def exynosFlashImage (uboot : List Nat) (fdtSer : String → List Nat) (textBase : Nat)
    (payload : List Nat) (update verify : Bool)
    (probes : Nat → Nat → ProbeOutcome) (upload : Nat → Option String) : ExynosOut :=
  match prepareFlasher uboot fdtSer textBase payload update verify exynosBootType exynosBus with
  | Except.error e =>
    { prep := Except.error e, cmds := [], result := Except.error (FlashErr.prep e) }
  | Except.ok p =>
    let stages := exynosGo probes upload exynosDownloadList 0 true
    { prep := Except.ok p,
      cmds := ExtCmd.dutControlReset :: stages.2 ++ [ExtCmd.dutControlFinish],
      result :=
        match stages.1 with
        | Except.error m => Except.error (FlashErr.cmd m)
        | Except.ok _ => Except.ok true }

/-- Success message of DoWriteFirmware (lines 404-405). -/
def uploadedMsg : String := "Image uploaded - please wait for flashing to complete"

/-- Failure message of DoWriteFirmware (line 407). -/
def uploadFailedMsg : String := "Image upload failed - please check board connection"

/-- Observable outcome of DoWriteFirmware: which family method ran (if
any), the returned value or escaping CmdError, and the Progress messages
shown. -/
structure DoOut where
  flashMethodCalled : Option String
  result : Except String Unit
  progress : List String
deriving DecidableEq

/-- DoWriteFirmware dispatch (lines 370-411).  The family methods are
abstracted by their outcomes: tegraResult and exynosResult stand for the
value returned (or CmdError raised) by _NvidiaFlashImage and
_ExynosFlashImage respectively; only the one selected by method is
consulted. -/
def doWriteFirmware (dest method : String)
    (tegraResult exynosResult : Except String Bool) : DoOut :=
  if dest = "usb" then
    if method = "tegra" then
      match tegraResult with
      | Except.error e =>
        { flashMethodCalled := some ("tegra"), result := Except.error e, progress := [] }
      | Except.ok true =>
        { flashMethodCalled := some ("tegra"), result := Except.ok (), progress := [uploadedMsg] }
      | Except.ok false =>
        { flashMethodCalled := some ("tegra"), result := Except.error uploadFailedMsg,
          progress := [] }
    else if method = "exynos" then
      match exynosResult with
      | Except.error e =>
        { flashMethodCalled := some ("exynos"), result := Except.error e, progress := [] }
      | Except.ok true =>
        { flashMethodCalled := some ("exynos"), result := Except.ok (), progress := [uploadedMsg] }
      | Except.ok false =>
        { flashMethodCalled := some ("exynos"), result := Except.error uploadFailedMsg,
          progress := [] }
    else
      { flashMethodCalled := none,
        result := Except.error ("Unknown flash method " ++ sglq ++ method ++ sglq),
        progress := [] }
  else if dest = "sd" then
    { flashMethodCalled := none, result := Except.ok (), progress := [] }
  else
    { flashMethodCalled := none,
      result := Except.error ("Unknown destination device " ++ sglq ++ dest ++ sglq),
      progress := [] }

/-- Failure messages of the first k nvflash attempts starting at an index
(successes contribute their dummy empty message; the lemmas only consult
entries of transient prefixes). -/
def msgsOf (run : Nat → AttemptOutcome) (idx : Nat) : Nat → List String
  | 0 => []
  | k + 1 => msgOf (run idx) :: msgsOf run (idx + 1) k

/-- Concrete bootloader bytes used by the witnesses. -/
def cUboot : List Nat := [170]

/-- Concrete fdt serialization used by the witnesses: the serialized blob
is the boot command text itself, so the load-address marker appears in it
exactly once. -/
def cFdtSer : String → List Nat := fun s => strBytes s

/-- Concrete payload bytes used by the witnesses. -/
def cPayload : List Nat := [1, 2, 3]

/-- Concrete PrepareFlasher run used by witnesses, on the spi boot type. -/
def cPrep : Except PrepError PrepOut :=
  prepareFlasher cUboot cFdtSer 0 cPayload true false ("spi") ("0")

/-- Placeholder output value for the witness accessors. -/
def emptyPrepOut : PrepOut :=
  { script := "", checksum := 0, fdtData := [], payloadOffset := 0,
    loadAddress := 0, image := [], notices := [] }

/-- Output of the successful witness PrepareFlasher run. -/
def cOut : PrepOut :=
  match cPrep with
  | Except.ok o => o
  | Except.error _ => emptyPrepOut

/-- Concrete PrepareFlasher run used by the Exynos-path witnesses. -/
def cPrepE : Except PrepError PrepOut :=
  prepareFlasher cUboot cFdtSer 0 cPayload true false exynosBootType exynosBus

/-- Output of the Exynos-path witness PrepareFlasher run. -/
def cOutE : PrepOut :=
  match cPrepE with
  | Except.ok o => o
  | Except.error _ => emptyPrepOut

/-- Attempt outcomes of the C1 counterexample: the first nvflash call
fails with the transient message and the second call would succeed. -/
def c1run : Nat → AttemptOutcome := fun n =>
  if n = 0 then AttemptOutcome.failure usbNotFound else AttemptOutcome.success

/-- Probe outcomes of the C5 witness: the device appears on cycle 1. -/
def c5probe : Nat → ProbeOutcome := fun n =>
  if n = 0 then ProbeOutcome.failed ("no device") else ProbeOutcome.found

/-- Probe outcomes of the C6 witness: the device never appears. -/
def c6probes : Nat → Nat → ProbeOutcome := fun _ _ => ProbeOutcome.failed ("no device")

/-- Transfer outcomes of the C6 witness: every smdk-usbdl run succeeds. -/
def c6upload : Nat → Option String := fun _ => none

lemma xor_and_eq_ldiff (m n : Nat) : m ^^^ (m &&& n) = Nat.ldiff m n := by
  apply Nat.eq_of_testBit_eq
  intro i
  simp only [Nat.testBit_xor, Nat.testBit_and, Nat.testBit_ldiff]
  cases m.testBit i <;> cases n.testBit i <;> rfl

lemma pyAnd_eq_land (a b : Int) : pyAnd a b = Int.land a b := by
  cases a with
  | ofNat m =>
    cases b with
    | ofNat n => rfl
    | negSucc n => simp [pyAnd, Int.land, xor_and_eq_ldiff]
  | negSucc m =>
    cases b with
    | ofNat n => simp [pyAnd, Int.land, xor_and_eq_ldiff]
    | negSucc n => rfl

lemma ldiff_two_pow_sub_one (x k : Nat) :
    Nat.ldiff x (2 ^ k - 1) = 2 ^ k * (x / 2 ^ k) := by
  have h : 2 ^ k * (x / 2 ^ k) = (x >>> k) <<< k := by
    rw [Nat.shiftLeft_eq, Nat.shiftRight_eq_div_pow, Nat.mul_comm]
  rw [h]
  apply Nat.eq_of_testBit_eq
  intro i
  rw [Nat.testBit_ldiff, Nat.testBit_two_pow_sub_one, Nat.testBit_shiftLeft,
    Nat.testBit_shiftRight]
  by_cases hik : k ≤ i
  · have : k + (i - k) = i := by omega
    rw [this]
    simp [hik, Nat.not_lt.mpr hik]
  · simp [hik, Nat.lt_of_not_le hik]

lemma ldiff_all_ones (n m : Nat) (hm : m < 2 ^ n) :
    Nat.ldiff (2 ^ n - 1) m = 2 ^ n - (m + 1) := by
  apply Nat.eq_of_testBit_eq
  intro i
  rw [Nat.testBit_ldiff, Nat.testBit_two_pow_sub_one, Nat.testBit_two_pow_sub_succ hm]

lemma roundUpN_pow (v k : Nat) :
    roundUpN v (2 ^ k) = 2 ^ k * ((v + 2 ^ k - 1) / 2 ^ k) := by
  have hb : (1 : Nat) ≤ 2 ^ k := Nat.one_le_two_pow
  have h1 : (Int.ofNat v + Int.ofNat (2 ^ k) - 1) = Int.ofNat (v + 2 ^ k - 1) := by
    simp only [Int.ofNat_eq_natCast]
    omega
  have h2 : pyNot (Int.ofNat (2 ^ k) - 1) = Int.negSucc (2 ^ k - 1) := by
    simp only [pyNot, Int.negSucc_eq, Int.ofNat_eq_natCast]
    omega
  rw [roundUpN, RoundUp, h1, h2]
  show (Int.ofNat ((v + 2 ^ k - 1) ^^^ ((v + 2 ^ k - 1) &&& (2 ^ k - 1)))).toNat = _
  rw [xor_and_eq_ldiff, ldiff_two_pow_sub_one]
  rfl

lemma crcBit_lt (c : Nat) (h : c < 2 ^ 32) : crcBit c < 2 ^ 32 := by
  rw [crcBit]
  split
  · exact Nat.xor_lt_two_pow (by omega) (by norm_num)
  · omega

lemma crcByte_lt (c b : Nat) (h : c < 2 ^ 32) : crcByte c b < 2 ^ 32 := by
  have h0 : c ^^^ (b % 256) < 2 ^ 32 :=
    Nat.xor_lt_two_pow h (by have := Nat.mod_lt b (y := 256) (by norm_num); omega)
  exact crcBit_lt _ (crcBit_lt _ (crcBit_lt _ (crcBit_lt _ (crcBit_lt _
    (crcBit_lt _ (crcBit_lt _ (crcBit_lt _ h0)))))))

lemma crc32_lt (data : List Nat) : crc32 data < 2 ^ 32 := by
  rw [crc32]
  have hfold : ∀ l c, c < 2 ^ 32 → List.foldl crcByte c l < 2 ^ 32 := by
    intro l
    induction l with
    | nil => intro c hc; simpa using hc
    | cons b bs ih => intro c hc; exact ih _ (crcByte_lt c b hc)
  exact Nat.xor_lt_two_pow (hfold data 0xffffffff (by norm_num)) (by norm_num)

lemma checksumOf_eq_crc32 (data : List Nat) : checksumOf data = crc32 data := by
  have hlt := crc32_lt data
  rw [checksumOf, pyCrc32]
  by_cases hc : crc32 data < 2 ^ 31
  · rw [if_pos hc]
    show (Int.ofNat (crc32 data &&& 0xffffffff)).toNat = _
    have hm : (0xffffffff : Nat) = 2 ^ 32 - 1 := by norm_num
    rw [hm, Nat.and_pow_two_sub_one_eq_mod, Nat.mod_eq_of_lt hlt]
    rfl
  · rw [if_neg hc]
    have hns : Int.ofNat (crc32 data) - 2 ^ 32 = Int.negSucc (2 ^ 32 - 1 - crc32 data) := by
      simp only [Int.negSucc_eq, Int.ofNat_eq_natCast]
      omega
    rw [hns]
    show (Int.ofNat (0xffffffff ^^^ (0xffffffff &&& (2 ^ 32 - 1 - crc32 data)))).toNat = _
    have hm : (0xffffffff : Nat) = 2 ^ 32 - 1 := by norm_num
    have hmlt : 2 ^ 32 - 1 - crc32 data < 2 ^ 32 := by omega
    show 0xffffffff ^^^ (0xffffffff &&& (2 ^ 32 - 1 - crc32 data)) = _
    rw [hm, xor_and_eq_ldiff, ldiff_all_ones 32 _ hmlt]
    omega

lemma checksumOf_lt (data : List Nat) : checksumOf data < 2 ^ 32 := by
  rw [checksumOf_eq_crc32]
  exact crc32_lt data

/-- Sanity check: the model CRC of the ASCII bytes 123456789 is the
standard check value 0xcbf43926. -/
lemma crc32_check_value : crc32 (strBytes "123456789") = 0xcbf43926 := by decide

lemma roundUpN_pow_bounds (v k : Nat) :
    v ≤ roundUpN v (2 ^ k) ∧ roundUpN v (2 ^ k) % 2 ^ k = 0 ∧
    roundUpN v (2 ^ k) < v + 2 ^ k ∧
    ∀ m, m % 2 ^ k = 0 → v ≤ m → roundUpN v (2 ^ k) ≤ m := by
  have hb : 0 < 2 ^ k := Nat.two_pow_pos k
  rw [roundUpN_pow]
  have hdm := Nat.div_add_mod (v + 2 ^ k - 1) (2 ^ k)
  have hmlt := Nat.mod_lt (v + 2 ^ k - 1) hb
  refine ⟨by omega, Nat.mul_mod_right _ _, by omega, ?_⟩
  intro m hm hv
  have hq : (v + 2 ^ k - 1) / 2 ^ k ≤ m / 2 ^ k := by
    have hmm := Nat.div_add_mod m (2 ^ k)
    have h1 : v + 2 ^ k - 1 ≤ 2 ^ k * (m / 2 ^ k) + (2 ^ k - 1) := by omega
    have hz : (2 ^ k - 1) / 2 ^ k = 0 := Nat.div_eq_of_lt (by omega)
    calc (v + 2 ^ k - 1) / 2 ^ k
        ≤ (2 ^ k * (m / 2 ^ k) + (2 ^ k - 1)) / 2 ^ k := Nat.div_le_div_right h1
      _ = m / 2 ^ k + (2 ^ k - 1) / 2 ^ k := Nat.mul_add_div hb _ _
      _ = m / 2 ^ k := by rw [hz]; omega
  have hmul := Nat.mul_le_mul_left (2 ^ k) hq
  have hmm := Nat.div_add_mod m (2 ^ k)
  omega

/-- C8: for every non-negative offset and boundary 512 or 4096, RoundUp
as implemented by the bit trick (offset + boundary - 1) AND NOT
(boundary - 1) returns the smallest multiple of the boundary that is
greater than or equal to the offset. -/
theorem claimC8_roundUp (v b : Nat) (hb : b = 512 ∨ b = 4096) :
    v ≤ roundUpN v b ∧ roundUpN v b % b = 0 ∧ roundUpN v b < v + b ∧
    ∀ m, m % b = 0 → v ≤ m → roundUpN v b ≤ m := by
  rcases hb with hb | hb <;> subst hb
  · have h : (512 : Nat) = 2 ^ 9 := by norm_num
    rw [h]
    exact roundUpN_pow_bounds v 9
  · have h : (4096 : Nat) = 2 ^ 12 := by norm_num
    rw [h]
    exact roundUpN_pow_bounds v 12

/-- Witness for claimC8_roundUp at offset 1000, boundary 512. -/
theorem claimC8_roundUp_witness :
    1000 ≤ roundUpN 1000 512 ∧ roundUpN 1000 512 % 512 = 0 ∧
    roundUpN 1000 512 < 1000 + 512 ∧ roundUpN 1000 512 ≤ 1024 :=
  ⟨(claimC8_roundUp 1000 512 (Or.inl rfl)).1,
   (claimC8_roundUp 1000 512 (Or.inl rfl)).2.1,
   (claimC8_roundUp 1000 512 (Or.inl rfl)).2.2.1,
   (claimC8_roundUp 1000 512 (Or.inl rfl)).2.2.2 1024 (by decide) (by decide)⟩

lemma str_ne_append (t s r : String) (hne : t.data.head? ≠ s.data.head?) (hs : s.data ≠ []) :
    t ≠ s ++ r := by
  intro h
  apply hne
  rw [h, String.data_append, List.head?_append]
  cases hd : s.data with
  | nil => exact absurd hd hs
  | cons c cs => rfl

lemma mem_run_cmds (ps cks : Nat) (u v : Bool) (bt bus : String) :
    ("time run _update" ∈ getFlashCmds ps u v bt cks bus ↔ bt = "spi" ∧ u = true) ∧
    ("run _erase" ∈ getFlashCmds ps u v bt cks bus ↔ ¬(bt = "spi" ∧ u = true)) ∧
    ("run _write" ∈ getFlashCmds ps u v bt cks bus ↔ ¬(bt = "spi" ∧ u = true)) := by
  have ha1 : "time run _update" ≠ "setenv address       0x" ++ replaceMe :=
    str_ne_append _ _ _ (by decide) (by decide)
  have ha2 : "time run _update" ≠ "setenv firmware_size " ++ pyHexAlt ps :=
    str_ne_append _ _ _ (by decide) (by decide)
  have ha3 : "time run _update" ≠ "setenv length        " ++ pyHexAlt (roundUpN ps 512) :=
    str_ne_append _ _ _ (by decide) (by decide)
  have ha4 : "time run _update" ≠ "setenv length        " ++ pyHexAlt (roundUpN ps 4096) :=
    str_ne_append _ _ _ (by decide) (by decide)
  have ha5 : "time run _update" ≠ "setenv blocks   " ++ pyHexAlt (roundUpN ps 512 / 512) :=
    str_ne_append _ _ _ (by decide) (by decide)
  have ha6 : "time run _update" ≠ "setenv blocks   " ++ pyHexAlt (roundUpN ps 4096 / 4096) :=
    str_ne_append _ _ _ (by decide) (by decide)
  have ha7 : "time run _update" ≠
      "setenv _crc    \"crc32 -v ${address} ${firmware_size} " ++ (pyHexAlt08 cks ++ "\"") :=
    str_ne_append _ _ _ (by decide) (by decide)
  have ha8 : "time run _update" ≠
      "setenv _init   \"echo Init SPI;   sf probe            " ++ (bus ++ "\"") :=
    str_ne_append _ _ _ (by decide) (by decide)
  have hb1 : "run _erase" ≠ "setenv address       0x" ++ replaceMe :=
    str_ne_append _ _ _ (by decide) (by decide)
  have hb2 : "run _erase" ≠ "setenv firmware_size " ++ pyHexAlt ps :=
    str_ne_append _ _ _ (by decide) (by decide)
  have hb3 : "run _erase" ≠ "setenv length        " ++ pyHexAlt (roundUpN ps 512) :=
    str_ne_append _ _ _ (by decide) (by decide)
  have hb4 : "run _erase" ≠ "setenv length        " ++ pyHexAlt (roundUpN ps 4096) :=
    str_ne_append _ _ _ (by decide) (by decide)
  have hb5 : "run _erase" ≠ "setenv blocks   " ++ pyHexAlt (roundUpN ps 512 / 512) :=
    str_ne_append _ _ _ (by decide) (by decide)
  have hb6 : "run _erase" ≠ "setenv blocks   " ++ pyHexAlt (roundUpN ps 4096 / 4096) :=
    str_ne_append _ _ _ (by decide) (by decide)
  have hb7 : "run _erase" ≠
      "setenv _crc    \"crc32 -v ${address} ${firmware_size} " ++ (pyHexAlt08 cks ++ "\"") :=
    str_ne_append _ _ _ (by decide) (by decide)
  have hb8 : "run _erase" ≠
      "setenv _init   \"echo Init SPI;   sf probe            " ++ (bus ++ "\"") :=
    str_ne_append _ _ _ (by decide) (by decide)
  have hc1 : "run _write" ≠ "setenv address       0x" ++ replaceMe :=
    str_ne_append _ _ _ (by decide) (by decide)
  have hc2 : "run _write" ≠ "setenv firmware_size " ++ pyHexAlt ps :=
    str_ne_append _ _ _ (by decide) (by decide)
  have hc3 : "run _write" ≠ "setenv length        " ++ pyHexAlt (roundUpN ps 512) :=
    str_ne_append _ _ _ (by decide) (by decide)
  have hc4 : "run _write" ≠ "setenv length        " ++ pyHexAlt (roundUpN ps 4096) :=
    str_ne_append _ _ _ (by decide) (by decide)
  have hc5 : "run _write" ≠ "setenv blocks   " ++ pyHexAlt (roundUpN ps 512 / 512) :=
    str_ne_append _ _ _ (by decide) (by decide)
  have hc6 : "run _write" ≠ "setenv blocks   " ++ pyHexAlt (roundUpN ps 4096 / 4096) :=
    str_ne_append _ _ _ (by decide) (by decide)
  have hc7 : "run _write" ≠
      "setenv _crc    \"crc32 -v ${address} ${firmware_size} " ++ (pyHexAlt08 cks ++ "\"") :=
    str_ne_append _ _ _ (by decide) (by decide)
  have hc8 : "run _write" ≠
      "setenv _init   \"echo Init SPI;   sf probe            " ++ (bus ++ "\"") :=
    str_ne_append _ _ _ (by decide) (by decide)
  by_cases h1 : bt = "spi"
  · subst h1
    cases u <;> cases v <;> refine ⟨?_, ?_, ?_⟩ <;>
      simp [getFlashCmds, ha1, ha2, ha3, ha4, ha5, ha6, ha7, ha8,
        hb1, hb2, hb3, hb4, hb5, hb6, hb7, hb8, hc1, hc2, hc3, hc4, hc5, hc6, hc7, hc8]
  · by_cases h2 : bt = "nand"
    · subst h2
      cases v <;> refine ⟨?_, ?_, ?_⟩ <;>
        simp [getFlashCmds, ha1, ha2, ha3, ha4, ha5, ha6, ha7, ha8,
          hb1, hb2, hb3, hb4, hb5, hb6, hb7, hb8, hc1, hc2, hc3, hc4, hc5, hc6, hc7, hc8]
    · by_cases h3 : bt = "sdmmc"
      · subst h3
        cases v <;> refine ⟨?_, ?_, ?_⟩ <;>
          simp [getFlashCmds, ha1, ha2, ha3, ha4, ha5, ha6, ha7, ha8,
            hb1, hb2, hb3, hb4, hb5, hb6, hb7, hb8, hc1, hc2, hc3, hc4, hc5, hc6, hc7, hc8]
      · cases v <;> refine ⟨?_, ?_, ?_⟩ <;>
          simp [getFlashCmds, h1, h2, h3, ha1, ha2, ha3, ha4, ha5, ha6, ha7, ha8,
            hb1, hb2, hb3, hb4, hb5, hb6, hb7, hb8, hc1, hc2, hc3, hc4, hc5, hc6, hc7, hc8]

/-- C3: for every positive payload size, checksum and bus, the boot script
built by GetFlashScript rounds the transfer length with page size 512 for
the sdmmc boot type and 4096 for every other boot type; for the spi boot
type with update requested it contains the fast update command and omits
the erase and write commands; for the nand and sdmmc boot types the
update request is ignored and the script always contains the erase and
write commands and never the update command. -/
theorem claimC3_bootScript (payload_size : Nat) (hps : 0 < payload_size)
    (update verify : Bool) (boot_type : String) (checksum : Nat) (bus : String) :
    (boot_type = "sdmmc" →
      ("setenv length        " ++ pyHexAlt (roundUpN payload_size 512)) ∈
        getFlashCmds payload_size update verify boot_type checksum bus) ∧
    (boot_type ≠ "sdmmc" →
      ("setenv length        " ++ pyHexAlt (roundUpN payload_size 4096)) ∈
        getFlashCmds payload_size update verify boot_type checksum bus) ∧
    (boot_type = "spi" → update = true →
      "time run _update" ∈ getFlashCmds payload_size update verify boot_type checksum bus ∧
      "run _erase" ∉ getFlashCmds payload_size update verify boot_type checksum bus ∧
      "run _write" ∉ getFlashCmds payload_size update verify boot_type checksum bus) ∧
    ((boot_type = "nand" ∨ boot_type = "sdmmc") →
      "run _erase" ∈ getFlashCmds payload_size update verify boot_type checksum bus ∧
      "run _write" ∈ getFlashCmds payload_size update verify boot_type checksum bus ∧
      "time run _update" ∉ getFlashCmds payload_size update verify boot_type checksum bus) := by
  refine ⟨?_, ?_, ?_, ?_⟩
  · intro h
    subst h
    simp [getFlashCmds]
  · intro h
    simp [getFlashCmds, h]
  · intro h hu
    subst h
    subst hu
    have hm := mem_run_cmds payload_size checksum true verify ("spi") bus
    refine ⟨hm.1.mpr ⟨rfl, rfl⟩, ?_, ?_⟩
    · intro hmem
      exact (hm.2.1.mp hmem) ⟨rfl, rfl⟩
    · intro hmem
      exact (hm.2.2.mp hmem) ⟨rfl, rfl⟩
  · intro h
    have hm := mem_run_cmds payload_size checksum update verify boot_type bus
    have hne : ¬(boot_type = "spi" ∧ update = true) := by
      rcases h with h | h <;> subst h <;> intro hx <;> exact absurd hx.1 (by decide)
    refine ⟨hm.2.1.mpr hne, hm.2.2.mpr hne, ?_⟩
    intro hmem
    exact hne (hm.1.mp hmem)

/-- Witness for claimC3_bootScript on the spi boot type with update. -/
theorem claimC3_bootScript_witness :
    "time run _update" ∈ getFlashCmds 100 true false ("spi") 5 ("0") ∧
    "run _erase" ∉ getFlashCmds 100 true false ("spi") 5 ("0") ∧
    "run _write" ∉ getFlashCmds 100 true false ("spi") 5 ("0") :=
  (claimC3_bootScript 100 (by decide) true false ("spi") 5 ("0")).2.2.1 rfl rfl

/-- C10: the Exynos path hands PrepareFlasher the boot type Spi with a
capital letter, which is not the lowercase spi the script builder tests
for; therefore the update flag is forced off for every Exynos session and
the generated script always contains the full erase and write commands
and never the fast update command, while still using the SPI command
templates of the final else branch. -/
theorem claimC10_exynosSpi (payload_size checksum : Nat) (update verify : Bool) :
    exynosBootType ≠ "spi" ∧
    "time run _update" ∉ getFlashCmds payload_size update verify exynosBootType checksum exynosBus ∧
    "run _erase" ∈ getFlashCmds payload_size update verify exynosBootType checksum exynosBus ∧
    "run _write" ∈ getFlashCmds payload_size update verify exynosBootType checksum exynosBus ∧
    "setenv _update \"echo Update SPI; sf update ${address} 0 ${length}\"" ∈
      getFlashCmds payload_size update verify exynosBootType checksum exynosBus ∧
    ∀ (uboot : List Nat) (fdtSer : String → List Nat) (textBase : Nat) (payload : List Nat)
      (probes : Nat → Nat → ProbeOutcome) (upload : Nat → Option String),
      (exynosFlashImage uboot fdtSer textBase payload update verify probes upload).prep =
        prepareFlasher uboot fdtSer textBase payload update verify exynosBootType exynosBus := by
  have hm := mem_run_cmds payload_size checksum update verify exynosBootType exynosBus
  have hne : ¬(exynosBootType = "spi" ∧ update = true) := by
    intro hx
    exact absurd hx.1 (by decide)
  refine ⟨by decide, ?_, hm.2.1.mpr hne, hm.2.2.mpr hne, ?_, ?_⟩
  · intro hmem
    exact hne (hm.1.mp hmem)
  · simp [getFlashCmds, exynosBootType, exynosBus]
  · intro uboot fdtSer textBase payload probes upload
    unfold exynosFlashImage
    cases hp : prepareFlasher uboot fdtSer textBase payload update verify exynosBootType exynosBus with
    | error e => rfl
    | ok p => rfl

/-- C7: DoWriteFirmware with destination sd does nothing and returns
normally; an unrecognized destination raises a CmdError naming it; with
destination usb an unrecognized flash method raises a CmdError naming the
method without calling a family path; a family path answering False turns
into the fatal upload-failure CmdError; a family path answering True
reports the uploaded Progress message. -/
theorem claimC7_doWriteFirmware (dest method : String)
    (tegraResult exynosResult : Except String Bool) :
    (dest = "sd" →
      doWriteFirmware dest method tegraResult exynosResult =
        { flashMethodCalled := none, result := Except.ok (), progress := [] }) ∧
    (dest ≠ "usb" → dest ≠ "sd" →
      doWriteFirmware dest method tegraResult exynosResult =
        { flashMethodCalled := none,
          result := Except.error ("Unknown destination device " ++ sglq ++ dest ++ sglq),
          progress := [] }) ∧
    (dest = "usb" → method ≠ "tegra" → method ≠ "exynos" →
      doWriteFirmware dest method tegraResult exynosResult =
        { flashMethodCalled := none,
          result := Except.error ("Unknown flash method " ++ sglq ++ method ++ sglq),
          progress := [] }) ∧
    (dest = "usb" → method = "tegra" → tegraResult = Except.ok false →
      (doWriteFirmware dest method tegraResult exynosResult).result =
        Except.error uploadFailedMsg) ∧
    (dest = "usb" → method = "exynos" → exynosResult = Except.ok false →
      (doWriteFirmware dest method tegraResult exynosResult).result =
        Except.error uploadFailedMsg) ∧
    (dest = "usb" → method = "tegra" → tegraResult = Except.ok true →
      (doWriteFirmware dest method tegraResult exynosResult).result = Except.ok () ∧
      uploadedMsg ∈ (doWriteFirmware dest method tegraResult exynosResult).progress) ∧
    (dest = "usb" → method = "exynos" → exynosResult = Except.ok true →
      (doWriteFirmware dest method tegraResult exynosResult).result = Except.ok () ∧
      uploadedMsg ∈ (doWriteFirmware dest method tegraResult exynosResult).progress) := by
  refine ⟨?_, ?_, ?_, ?_, ?_, ?_, ?_⟩
  · intro h
    subst h
    simp [doWriteFirmware]
  · intro h1 h2
    simp [doWriteFirmware, h1, h2]
  · intro h1 h2 h3
    subst h1
    simp [doWriteFirmware, h2, h3]
  · intro h1 h2 h3
    subst h1
    subst h2
    subst h3
    simp [doWriteFirmware]
  · intro h1 h2 h3
    subst h1
    subst h2
    subst h3
    simp [doWriteFirmware]
  · intro h1 h2 h3
    subst h1
    subst h2
    subst h3
    simp [doWriteFirmware]
  · intro h1 h2 h3
    subst h1
    subst h2
    subst h3
    simp [doWriteFirmware]

/-- Witness for claimC7_doWriteFirmware: an unknown destination raises
the CmdError naming it, and the sd destination is a no-op. -/
theorem claimC7_doWriteFirmware_witness :
    doWriteFirmware ("floppy") ("tegra") (Except.ok true) (Except.ok true) =
      { flashMethodCalled := none,
        result := Except.error ("Unknown destination device " ++ sglq ++ "floppy" ++ sglq),
        progress := [] } ∧
    doWriteFirmware ("sd") ("tegra") (Except.ok true) (Except.ok true) =
      { flashMethodCalled := none, result := Except.ok (), progress := [] } :=
  ⟨(claimC7_doWriteFirmware ("floppy") ("tegra") (Except.ok true) (Except.ok true)).2.1
      (by decide) (by decide),
   (claimC7_doWriteFirmware ("sd") ("tegra") (Except.ok true) (Except.ok true)).1 rfl⟩

lemma strBytes_length (s : String) : (strBytes s).length = s.length := by
  rw [strBytes, List.length_map]
  rfl

/-- C9: the checksum PrepareFlasher computes is binascii.crc32 of the
payload masked into the unsigned 32-bit range: it depends on the payload
bytes alone, equals the plain CRC-32 of the payload, lies below 2 to the
32, appears as the literal argument of the crc32 verification command of
the generated script, and is reported in the operator notice. -/
theorem claimC9_checksum (uboot payload : List Nat) (fdtSer : String → List Nat)
    (textBase : Nat) (update verify : Bool) (boot_type bus : String) (out : PrepOut)
    (h : prepareFlasher uboot fdtSer textBase payload update verify boot_type bus =
      Except.ok out) :
    out.checksum = checksumOf payload ∧ out.checksum = crc32 payload ∧
    out.checksum < 2 ^ 32 ∧
    ("setenv _crc    \"crc32 -v ${address} ${firmware_size} " ++
        (pyHexAlt08 out.checksum ++ "\"")) ∈
      getFlashCmds payload.length update verify boot_type out.checksum bus ∧
    out.script = (getFlashScript payload.length update verify boot_type out.checksum bus).1 ∧
    ("Payload checksum " ++ pyHex08 out.checksum) ∈ out.notices := by
  simp only [prepareFlasher] at h
  split_ifs at h with h1 h2
  rw [Except.ok.injEq] at h
  subst h
  dsimp only
  refine ⟨rfl, checksumOf_eq_crc32 payload, checksumOf_lt payload, ?_, rfl, ?_⟩
  · simp [getFlashCmds]
  · simp

/-- Witness for claimC9_checksum on the concrete spi witness run. -/
theorem claimC9_checksum_witness :
    cPrep = Except.ok cOut ∧ cOut.checksum = crc32 cPayload ∧
    ("Payload checksum " ++ pyHex08 cOut.checksum) ∈ cOut.notices := by
  have h : cPrep = Except.ok cOut := by rfl
  exact ⟨h,
    (claimC9_checksum cUboot cPayload cFdtSer 0 true false ("spi") ("0") cOut h).2.1,
    (claimC9_checksum cUboot cPayload cFdtSer 0 true false ("spi") ("0") cOut h).2.2.2.2.2⟩

/-- C2: PrepareFlasher fails with the length-mismatch error whenever the
rendered load address string is not exactly as long as the 8-character
marker, fails with the marker-count error whenever the marker does not
occur exactly once in the serialized configuration bytes, and otherwise
raises nothing and substitutes the marker with the rendered address. -/
theorem claimC2_prepare (uboot payload : List Nat) (fdtSer : String → List Nat)
    (textBase : Nat) (update verify : Bool) (boot_type bus : String)
    (fdt_data : List Nat) (new_str : String)
    (hfdt : fdt_data =
      fdtSer (getFlashScript payload.length update verify boot_type (checksumOf payload) bus).1)
    (hnew : new_str = pyHex08 (textBase + roundUpN (uboot.length + fdt_data.length) 0x1000)) :
    ((prepareFlasher uboot fdtSer textBase payload update verify boot_type bus).isOk = true ↔
      (new_str.length = 8 ∧ subCount (strBytes replaceMe) fdt_data = 1)) ∧
    (new_str.length ≠ 8 →
      prepareFlasher uboot fdtSer textBase payload update verify boot_type bus =
        Except.error (PrepError.addrLenMismatch new_str)) ∧
    (new_str.length = 8 → subCount (strBytes replaceMe) fdt_data ≠ 1 →
      prepareFlasher uboot fdtSer textBase payload update verify boot_type bus =
        Except.error (PrepError.placeholderCount (subCount (strBytes replaceMe) fdt_data))) ∧
    (∀ out : PrepOut,
      prepareFlasher uboot fdtSer textBase payload update verify boot_type bus =
        Except.ok out →
      out.fdtData = replaceAll (strBytes replaceMe) (strBytes new_str) fdt_data) := by
  subst hfdt
  subst hnew
  have hrm : replaceMe.length = 8 := by decide
  have hsp2 : (getFlashScript payload.length update verify boot_type
      (checksumOf payload) bus).2 = replaceMe := rfl
  refine ⟨?_, ?_, ?_, ?_⟩
  · simp only [prepareFlasher, hsp2]
    split_ifs with h1 h2
    · show false = true ↔ _
      constructor
      · intro hx
        exact Bool.noConfusion hx
      · intro hx
        exfalso
        omega
    · show false = true ↔ _
      constructor
      · intro hx
        exact Bool.noConfusion hx
      · intro hx
        exact absurd hx.2 h2
    · show true = true ↔ _
      constructor
      · intro _
        refine ⟨by omega, by omega⟩
      · intro _
        rfl
  · intro hlen
    simp only [prepareFlasher, hsp2]
    split_ifs with h1 h2
    · rfl
    · exfalso
      omega
    · exfalso
      omega
  · intro hlen hcnt
    simp only [prepareFlasher, hsp2]
    split_ifs with h1
    · exfalso
      omega
    · rfl
  · intro out hout
    simp only [prepareFlasher, hsp2] at hout
    split_ifs at hout with h1 h2
    rw [Except.ok.injEq] at hout
    subst hout
    rfl

/-- Witness for claimC2_prepare: with a text base at the 32-bit boundary
the rendered address is 9 characters long and PrepareFlasher fails with
the length-mismatch error. -/
theorem claimC2_prepare_witness :
    prepareFlasher [] (fun _ => strBytes replaceMe) 4294967296 cPayload true false
        ("spi") ("0") =
      Except.error (PrepError.addrLenMismatch
        (pyHex08 (4294967296 +
          roundUpN ((List.length ([] : List Nat)) + (strBytes replaceMe).length) 0x1000))) :=
  (claimC2_prepare [] cPayload (fun _ => strBytes replaceMe) 4294967296 true false
      ("spi") ("0") (strBytes replaceMe) _ rfl rfl).2.1 (by decide)

lemma startsWithB_le (pat : List Nat) : ∀ l, startsWithB pat l = true → pat.length ≤ l.length := by
  induction pat with
  | nil =>
    intro l _
    simp
  | cons p ps ih =>
    intro l h
    cases l with
    | nil => simp [startsWithB] at h
    | cons c cs =>
      simp only [startsWithB, Bool.and_eq_true] at h
      have := ih cs h.2
      simp only [List.length_cons]
      omega

lemma replaceAllGo_length (pat rep : List Nat) (hlen : rep.length = pat.length)
    (hp : pat ≠ []) : ∀ fuel l, (replaceAllGo pat rep fuel l).length = l.length := by
  intro fuel
  induction fuel with
  | zero =>
    intro l
    cases l <;> rfl
  | succ f ih =>
    intro l
    cases l with
    | nil => rfl
    | cons c cs =>
      simp only [replaceAllGo]
      split
      next hsw =>
        rw [List.length_append, ih, List.length_drop]
        have hple := startsWithB_le pat (c :: cs) hsw
        have hppos : 0 < pat.length := List.length_pos.mpr hp
        simp only [List.length_cons] at hple ⊢
        omega
      next hsw =>
        simp only [List.length_cons, ih]

/-- Length of the substituted configuration blob equals the length of the
original blob when the replacement is as long as the pattern. -/
lemma replaceAll_length (pat rep data : List Nat) (hlen : rep.length = pat.length)
    (hp : pat ≠ []) : (replaceAll pat rep data).length = data.length :=
  replaceAllGo_length pat rep hlen hp data.length data

/-- C4: a successful PrepareFlasher run assembles exactly bootloader
bytes, then substituted configuration bytes, then zero padding up to the
payload offset, then the payload, where the payload offset is the
4096-aligned round-up of bootloader plus configuration length; hence
taking the payload length bytes of the image starting at the payload
offset returns the payload unchanged. -/
theorem claimC4_roundtrip (uboot payload : List Nat) (fdtSer : String → List Nat)
    (textBase : Nat) (update verify : Bool) (boot_type bus : String) (out : PrepOut)
    (h : prepareFlasher uboot fdtSer textBase payload update verify boot_type bus =
      Except.ok out) :
    out.payloadOffset = roundUpN (uboot.length + out.fdtData.length) 4096 ∧
    out.image = uboot ++ (out.fdtData ++
      (List.replicate (out.payloadOffset - (uboot.length + out.fdtData.length)) 0 ++ payload)) ∧
    uboot.length + out.fdtData.length ≤ out.payloadOffset ∧
    (out.image.drop out.payloadOffset).take payload.length = payload := by
  have hsp2 : (getFlashScript payload.length update verify boot_type
      (checksumOf payload) bus).2 = replaceMe := rfl
  have hrm : replaceMe.length = 8 := by decide
  simp only [prepareFlasher, hsp2] at h
  split_ifs at h with h1 h2
  rw [Except.ok.injEq] at h
  subst h
  dsimp only
  set f0 := fdtSer (getFlashScript payload.length update verify boot_type
    (checksumOf payload) bus).1 with hf0
  set off := roundUpN (uboot.length + f0.length) 0x1000 with hoff
  set ns := pyHex08 (textBase + off) with hns
  set ra := replaceAll (strBytes replaceMe) (strBytes ns) f0 with hra
  have hlenB : (strBytes ns).length = (strBytes replaceMe).length := by
    rw [strBytes_length, strBytes_length]
    omega
  have hpne : strBytes replaceMe ≠ [] := by decide
  have hpres : ra.length = f0.length := by
    rw [hra]
    exact replaceAll_length _ _ _ hlenB hpne
  have h4096 : (0x1000 : Nat) = 2 ^ 12 := by norm_num
  have hle : uboot.length + f0.length ≤ off := by
    rw [hoff, h4096]
    exact (roundUpN_pow_bounds (uboot.length + f0.length) 12).1
  refine ⟨by rw [hpres], ?_, by rw [hpres]; exact hle, ?_⟩
  · rw [List.length_append]
    simp [List.append_assoc]
  · have hFlen : ((uboot ++ ra) ++
        List.replicate (off - (uboot ++ ra).length) 0).length = off := by
      simp only [List.length_append, List.length_replicate]
      omega
    have key : ∀ F : List Nat, F.length = off →
        ((F ++ payload).drop off).take payload.length = payload := by
      intro F hF
      rw [← hF, List.drop_left, List.take_length]
    exact key _ hFlen

/-- Witness for claimC4_roundtrip on the concrete spi witness run. -/
theorem claimC4_roundtrip_witness :
    cPrep = Except.ok cOut ∧
    (cOut.image.drop cOut.payloadOffset).take cPayload.length = cPayload := by
  have h : cPrep = Except.ok cOut := by rfl
  exact ⟨h,
    (claimC4_roundtrip cUboot cPayload cFdtSer 0 true false ("spi") ("0") cOut h).2.2.2⟩

lemma waitGo_all_failed (probe : Nat → ProbeOutcome) :
    ∀ fuel idx cycles sleeps, (∀ j, j < fuel → foundB (probe (idx + j)) = false) →
      waitGo probe idx cycles sleeps fuel =
        { found := false, cycles := cycles + fuel, sleeps := sleeps + fuel } := by
  intro fuel
  induction fuel with
  | zero =>
    intro idx cycles sleeps _
    rfl
  | succ f ih =>
    intro idx cycles sleeps h
    have h0 := h 0 (by omega)
    rw [Nat.add_zero] at h0
    cases hp : probe idx with
    | found =>
      rw [hp] at h0
      exact absurd h0 (by simp [foundB])
    | failed m =>
      have hpre : ∀ j, j < f → foundB (probe (idx + 1 + j)) = false := by
        intro j hj
        have hx := h (j + 1) (by omega)
        rw [show idx + (j + 1) = idx + 1 + j by omega] at hx
        exact hx
      simp only [waitGo, hp]
      rw [ih (idx + 1) (cycles + 1) (sleeps + 1) hpre]
      congr 1 <;> omega

lemma waitGo_found (probe : Nat → ProbeOutcome) :
    ∀ k fuel idx cycles sleeps, k < fuel →
      (∀ j, j < k → foundB (probe (idx + j)) = false) →
      probe (idx + k) = ProbeOutcome.found →
      waitGo probe idx cycles sleeps fuel =
        { found := true, cycles := cycles + k + 1, sleeps := sleeps + k } := by
  intro k
  induction k with
  | zero =>
    intro fuel idx cycles sleeps hk _ hfound
    cases fuel with
    | zero => omega
    | succ f =>
      rw [Nat.add_zero] at hfound
      simp only [waitGo, hfound]
      congr 1 <;> omega
  | succ kk ih =>
    intro fuel idx cycles sleeps hk h hfound
    cases fuel with
    | zero => omega
    | succ f =>
      have h0 := h 0 (by omega)
      rw [Nat.add_zero] at h0
      cases hp : probe idx with
      | found =>
        rw [hp] at h0
        exact absurd h0 (by simp [foundB])
      | failed m =>
        have hpre : ∀ j, j < kk → foundB (probe (idx + 1 + j)) = false := by
          intro j hj
          have hx := h (j + 1) (by omega)
          rw [show idx + (j + 1) = idx + 1 + j by omega] at hx
          exact hx
        have hfound2 : probe (idx + 1 + kk) = ProbeOutcome.found := by
          rw [show idx + 1 + kk = idx + (kk + 1) by omega]
          exact hfound
        simp only [waitGo, hp]
        rw [ih f (idx + 1) (cycles + 1) (sleeps + 1) (by omega) hpre hfound2]
        congr 1 <;> omega

lemma waitGo_congr (p1 p2 : Nat → ProbeOutcome)
    (hsame : ∀ j, foundB (p2 j) = foundB (p1 j)) :
    ∀ fuel idx cycles sleeps,
      waitGo p2 idx cycles sleeps fuel = waitGo p1 idx cycles sleeps fuel := by
  intro fuel
  induction fuel with
  | zero =>
    intro idx cycles sleeps
    rfl
  | succ f ih =>
    intro idx cycles sleeps
    have hs := hsame idx
    cases hp2 : p2 idx with
    | found =>
      cases hp1 : p1 idx with
      | found => simp only [waitGo, hp1, hp2]
      | failed m =>
        rw [hp1, hp2] at hs
        exact absurd hs (by simp [foundB])
    | failed m2 =>
      cases hp1 : p1 idx with
      | found =>
        rw [hp1, hp2] at hs
        exact absurd hs (by simp [foundB])
      | failed m1 =>
        simp only [waitGo, hp1, hp2]
        exact ih (idx + 1) (cycles + 1) (sleeps + 1)

/-- C5: the USB probe loop returns found as soon as an enumeration query
succeeds, issuing one query per cycle up to and including the successful
one and one half-second sleep per failed cycle; with every query failing
it returns not-found after exactly timeout times 2 cycles, never fewer;
and the outcome depends only on which cycles succeed, not on the kind or
text of the enumeration errors. -/
theorem claimC5_waitForUSB (probe : Nat → ProbeOutcome) (timeout : Nat) :
    ((∀ j, j < timeout * 2 → foundB (probe j) = false) →
      waitForUSB probe timeout =
        { found := false, cycles := timeout * 2, sleeps := timeout * 2 }) ∧
    (∀ k, k < timeout * 2 → (∀ j, j < k → foundB (probe j) = false) →
      probe k = ProbeOutcome.found →
      waitForUSB probe timeout = { found := true, cycles := k + 1, sleeps := k }) ∧
    (∀ probe2 : Nat → ProbeOutcome, (∀ j, foundB (probe2 j) = foundB (probe j)) →
      waitForUSB probe2 timeout = waitForUSB probe timeout) := by
  refine ⟨?_, ?_, ?_⟩
  · intro h
    have hpre : ∀ j, j < timeout * 2 → foundB (probe (0 + j)) = false := by
      intro j hj
      rw [Nat.zero_add]
      exact h j hj
    rw [waitForUSB, waitGo_all_failed probe (timeout * 2) 0 0 0 hpre]
    congr 1 <;> omega
  · intro k hk h hfound
    have hpre : ∀ j, j < k → foundB (probe (0 + j)) = false := by
      intro j hj
      rw [Nat.zero_add]
      exact h j hj
    have hfound0 : probe (0 + k) = ProbeOutcome.found := by
      rw [Nat.zero_add]
      exact hfound
    rw [waitForUSB, waitGo_found probe k (timeout * 2) 0 0 0 hk hpre hfound0]
    congr 1 <;> omega
  · intro probe2 hsame
    exact waitGo_congr probe probe2 hsame (timeout * 2) 0 0 0

/-- Witness for claimC5_waitForUSB: a failure at cycle 0 and a success at
cycle 1 stop the probe after two cycles with one sleep. -/
theorem claimC5_waitForUSB_witness :
    waitForUSB c5probe 2 = { found := true, cycles := 2, sleeps := 1 } :=
  (claimC5_waitForUSB c5probe 2).2.1 1 (by decide) (by decide) (by decide)

lemma msgsOf_zero (run : Nat → AttemptOutcome) (idx : Nat) : msgsOf run idx 0 = [] := rfl

lemma msgsOf_succ (run : Nat → AttemptOutcome) (idx k : Nat) :
    msgsOf run idx (k + 1) = msgOf (run idx) :: msgsOf run (idx + 1) k := rfl

lemma nvidiaGo_all_transient (run : Nat → AttemptOutcome) :
    ∀ fuel idx lastErr notices sleeps,
      (∀ j, j < fuel → transientB (run (idx + j)) = true) →
      nvidiaGo true run idx lastErr notices sleeps fuel =
        { result := Except.ok false,
          notices := notices ++ keepChanges lastErr (msgsOf run idx fuel),
          sleeps := sleeps + fuel } := by
  intro fuel
  induction fuel with
  | zero =>
    intro idx lastErr notices sleeps _
    simp [nvidiaGo, msgsOf, keepChanges]
  | succ f ih =>
    intro idx lastErr notices sleeps h
    have h0 := h 0 (by omega)
    rw [Nat.add_zero] at h0
    have hpre : ∀ j, j < f → transientB (run (idx + 1 + j)) = true := by
      intro j hj
      have hx := h (j + 1) (by omega)
      rw [show idx + (j + 1) = idx + 1 + j by omega] at hx
      exact hx
    cases hr : run idx with
    | success =>
      rw [hr] at h0
      exact absurd h0 (by simp [transientB])
    | failure m =>
      rw [hr] at h0
      have hm : strHas m usbNotFound = true := by simpa [transientB] using h0
      rw [msgsOf_succ, hr]
      by_cases hl : some m = lastErr
      · simp only [nvidiaGo, hr]
        rw [if_neg (by decide), if_neg (by simp [hm]), if_pos hl,
          ih (idx + 1) lastErr notices (sleeps + 1) hpre]
        rw [show keepChanges lastErr (msgOf (AttemptOutcome.failure m) ::
            msgsOf run (idx + 1) f) = keepChanges lastErr (msgsOf run (idx + 1) f) from by
          simp [keepChanges, msgOf, hl]]
        congr 1
        omega
      · simp only [nvidiaGo, hr]
        rw [if_neg (by decide), if_neg (by simp [hm]), if_neg hl,
          ih (idx + 1) (some m) (notices ++ [m]) (sleeps + 1) hpre]
        rw [show keepChanges lastErr (msgOf (AttemptOutcome.failure m) ::
            msgsOf run (idx + 1) f) = m :: keepChanges (some m) (msgsOf run (idx + 1) f) from by
          simp [keepChanges, msgOf, hl]]
        congr 1
        · rw [List.append_assoc]
          rfl
        · omega

lemma nvidiaGo_success (run : Nat → AttemptOutcome) :
    ∀ k fuel idx lastErr notices sleeps, k < fuel →
      (∀ j, j < k → transientB (run (idx + j)) = true) →
      run (idx + k) = AttemptOutcome.success →
      nvidiaGo true run idx lastErr notices sleeps fuel =
        { result := Except.ok true,
          notices := (notices ++ keepChanges lastErr (msgsOf run idx k)) ++ [dlNotice],
          sleeps := sleeps + k } := by
  intro k
  induction k with
  | zero =>
    intro fuel idx lastErr notices sleeps hk _ hs
    cases fuel with
    | zero => omega
    | succ f =>
      rw [Nat.add_zero] at hs
      simp only [nvidiaGo, hs]
      simp [msgsOf, keepChanges]
  | succ kk ih =>
    intro fuel idx lastErr notices sleeps hk h hs
    cases fuel with
    | zero => omega
    | succ f =>
      have h0 := h 0 (by omega)
      rw [Nat.add_zero] at h0
      have hpre : ∀ j, j < kk → transientB (run (idx + 1 + j)) = true := by
        intro j hj
        have hx := h (j + 1) (by omega)
        rw [show idx + (j + 1) = idx + 1 + j by omega] at hx
        exact hx
      have hs2 : run (idx + 1 + kk) = AttemptOutcome.success := by
        rw [show idx + 1 + kk = idx + (kk + 1) by omega]
        exact hs
      cases hr : run idx with
      | success =>
        rw [hr] at h0
        exact absurd h0 (by simp [transientB])
      | failure m =>
        rw [hr] at h0
        have hm : strHas m usbNotFound = true := by simpa [transientB] using h0
        rw [msgsOf_succ, hr]
        by_cases hl : some m = lastErr
        · simp only [nvidiaGo, hr]
          rw [if_neg (by decide), if_neg (by simp [hm]), if_pos hl,
            ih f (idx + 1) lastErr notices (sleeps + 1) (by omega) hpre hs2]
          rw [show keepChanges lastErr (msgOf (AttemptOutcome.failure m) ::
              msgsOf run (idx + 1) kk) = keepChanges lastErr (msgsOf run (idx + 1) kk) from by
            simp [keepChanges, msgOf, hl]]
          congr 1
          omega
        · simp only [nvidiaGo, hr]
          rw [if_neg (by decide), if_neg (by simp [hm]), if_neg hl,
            ih f (idx + 1) (some m) (notices ++ [m]) (sleeps + 1) (by omega) hpre hs2]
          rw [show keepChanges lastErr (msgOf (AttemptOutcome.failure m) ::
              msgsOf run (idx + 1) kk) = m :: keepChanges (some m) (msgsOf run (idx + 1) kk)
            from by simp [keepChanges, msgOf, hl]]
          congr 1
          · simp [List.append_assoc]
          · omega

lemma nvidiaGo_fatal (run : Nat → AttemptOutcome) :
    ∀ k fuel idx lastErr notices sleeps m, k < fuel →
      (∀ j, j < k → transientB (run (idx + j)) = true) →
      run (idx + k) = AttemptOutcome.failure m → strHas m usbNotFound = false →
      nvidiaGo true run idx lastErr notices sleeps fuel =
        { result := Except.error ("nvflash failed: " ++ m),
          notices := notices ++ keepChanges lastErr (msgsOf run idx k),
          sleeps := sleeps + k } := by
  intro k
  induction k with
  | zero =>
    intro fuel idx lastErr notices sleeps m hk _ hf hnm
    cases fuel with
    | zero => omega
    | succ f =>
      rw [Nat.add_zero] at hf
      simp only [nvidiaGo, hf]
      rw [if_neg (by decide), if_pos hnm]
      simp [msgsOf, keepChanges]
  | succ kk ih =>
    intro fuel idx lastErr notices sleeps m hk h hf hnm
    cases fuel with
    | zero => omega
    | succ f =>
      have h0 := h 0 (by omega)
      rw [Nat.add_zero] at h0
      have hpre : ∀ j, j < kk → transientB (run (idx + 1 + j)) = true := by
        intro j hj
        have hx := h (j + 1) (by omega)
        rw [show idx + (j + 1) = idx + 1 + j by omega] at hx
        exact hx
      have hf2 : run (idx + 1 + kk) = AttemptOutcome.failure m := by
        rw [show idx + 1 + kk = idx + (kk + 1) by omega]
        exact hf
      cases hr : run idx with
      | success =>
        rw [hr] at h0
        exact absurd h0 (by simp [transientB])
      | failure m0 =>
        rw [hr] at h0
        have hm : strHas m0 usbNotFound = true := by simpa [transientB] using h0
        rw [msgsOf_succ, hr]
        by_cases hl : some m0 = lastErr
        · simp only [nvidiaGo, hr]
          rw [if_neg (by decide), if_neg (by simp [hm]), if_pos hl,
            ih f (idx + 1) lastErr notices (sleeps + 1) m (by omega) hpre hf2 hnm]
          rw [show keepChanges lastErr (msgOf (AttemptOutcome.failure m0) ::
              msgsOf run (idx + 1) kk) = keepChanges lastErr (msgsOf run (idx + 1) kk) from by
            simp [keepChanges, msgOf, hl]]
          congr 1
          omega
        · simp only [nvidiaGo, hr]
          rw [if_neg (by decide), if_neg (by simp [hm]), if_neg hl,
            ih f (idx + 1) (some m0) (notices ++ [m0]) (sleeps + 1) m (by omega) hpre hf2 hnm]
          rw [show keepChanges lastErr (msgOf (AttemptOutcome.failure m0) ::
              msgsOf run (idx + 1) kk) = m0 :: keepChanges (some m0) (msgsOf run (idx + 1) kk)
            from by simp [keepChanges, msgOf, hl]]
          congr 1
          · rw [List.append_assoc]
            rfl
          · omega

lemma nvidiaGo_notty (run : Nat → AttemptOutcome) (idx : Nat) (lastErr : Option String)
    (notices : List String) (sleeps fuel : Nat) (m : String)
    (hm : run idx = AttemptOutcome.failure m) :
    nvidiaGo false run idx lastErr notices sleeps (fuel + 1) =
      { result := Except.ok false, notices := notices, sleeps := sleeps } := by
  simp only [nvidiaGo, hm]
  rw [if_pos trivial]

/-- C1 (amended): with stdout reported as a tty, the Nvidia retry loop
makes up to 10 nvflash attempts with a one-second sleep after each
transient failure: if all 10 attempts fail with messages containing the
transient pattern the method returns False, noticing a failure message
exactly when it differs from the previous failure message; a success
after a transient prefix returns True with the download notice; a
failure without the transient pattern after a transient prefix raises
the fatal nvflash CmdError at once; and with stdout not a tty the first
failure of any kind returns False immediately, with no retry, notice or
sleep. -/
theorem claimC1_nvidiaRetry (run : Nat → AttemptOutcome) :
    ((∀ j, j < 10 → transientB (run j) = true) →
      nvidiaFlash true run =
        { result := Except.ok false, notices := keepChanges none (msgsOf run 0 10),
          sleeps := 10 }) ∧
    (∀ k, k < 10 → (∀ j, j < k → transientB (run j) = true) →
      run k = AttemptOutcome.success →
      nvidiaFlash true run =
        { result := Except.ok true,
          notices := keepChanges none (msgsOf run 0 k) ++ [dlNotice], sleeps := k }) ∧
    (∀ k m, k < 10 → (∀ j, j < k → transientB (run j) = true) →
      run k = AttemptOutcome.failure m → strHas m usbNotFound = false →
      nvidiaFlash true run =
        { result := Except.error ("nvflash failed: " ++ m),
          notices := keepChanges none (msgsOf run 0 k), sleeps := k }) ∧
    (∀ m, run 0 = AttemptOutcome.failure m →
      nvidiaFlash false run =
        { result := Except.ok false, notices := [], sleeps := 0 }) := by
  refine ⟨?_, ?_, ?_, ?_⟩
  · intro h
    have hpre : ∀ j, j < 10 → transientB (run (0 + j)) = true := by
      intro j hj
      rw [Nat.zero_add]
      exact h j hj
    rw [nvidiaFlash, nvidiaGo_all_transient run 10 0 none [] 0 hpre]
    congr 1 <;> first | omega | rw [List.nil_append]
  · intro k hk h hs
    have hpre : ∀ j, j < k → transientB (run (0 + j)) = true := by
      intro j hj
      rw [Nat.zero_add]
      exact h j hj
    have hs0 : run (0 + k) = AttemptOutcome.success := by
      rw [Nat.zero_add]
      exact hs
    rw [nvidiaFlash, nvidiaGo_success run k 10 0 none [] 0 hk hpre hs0]
    congr 1 <;> first | omega | rw [List.nil_append]
  · intro k m hk h hf hnm
    have hpre : ∀ j, j < k → transientB (run (0 + j)) = true := by
      intro j hj
      rw [Nat.zero_add]
      exact h j hj
    have hf0 : run (0 + k) = AttemptOutcome.failure m := by
      rw [Nat.zero_add]
      exact hf
    rw [nvidiaFlash, nvidiaGo_fatal run k 10 0 none [] 0 m hk hpre hf0 hnm]
    congr 1 <;> first | omega | rw [List.nil_append]
  · intro m hm
    exact nvidiaGo_notty run 0 none [] 0 9 m hm

/-- Witness for claimC1_nvidiaRetry: one transient failure followed by a
success returns True with one sleep, one failure notice and the download
notice. -/
theorem claimC1_nvidiaRetry_witness :
    nvidiaFlash true c1run =
      { result := Except.ok true,
        notices := keepChanges none (msgsOf c1run 0 1) ++ [dlNotice], sleeps := 1 } :=
  (claimC1_nvidiaRetry c1run).2.1 1 (by decide) (by decide) (by decide)

/-- C1 counterexample: the claim quantifies only over the nvflash
outcomes, but the loop also consults whether stdout is a tty.  With
stdout not a tty, an attempt whose failure message contains the
transient pattern is not retried: the method returns False immediately
although the next attempt would succeed, while the same outcome
sequence with a tty returns True. -/
theorem claimC1_counterexample :
    transientB (c1run 0) = true ∧ c1run 1 = AttemptOutcome.success ∧
    (nvidiaFlash false c1run).result = Except.ok false ∧
    (nvidiaFlash false c1run).sleeps = 0 ∧
    (nvidiaFlash true c1run).result = Except.ok true := by
  refine ⟨by decide, by decide, by decide, by decide, by decide⟩

/-- C6: on the Exynos path with a prepared flasher, if the probe before
the first stage never sees the device within its 8 cycles the stage loop
raises the distinct board-not-found CmdError, no smdk-usbdl transfer is
issued, and the finally block still runs the dut-control release of the
recovery lines; that release command is issued on every exit of the
stage loop whatever the probe and transfer outcomes. -/
theorem claimC6_exynos (uboot payload : List Nat) (fdtSer : String → List Nat)
    (textBase : Nat) (update verify : Bool)
    (probes : Nat → Nat → ProbeOutcome) (upload : Nat → Option String) (p : PrepOut)
    (hprep : prepareFlasher uboot fdtSer textBase payload update verify
      exynosBootType exynosBus = Except.ok p) :
    ((∀ j, j < 8 → foundB (probes 0 j) = false) →
      (exynosFlashImage uboot fdtSer textBase payload update verify probes upload).result =
        Except.error (FlashErr.cmd boardNotFoundMsg) ∧
      (∀ s a, ExtCmd.smdkUsbdl s a ∉
        (exynosFlashImage uboot fdtSer textBase payload update verify probes upload).cmds)) ∧
    ExtCmd.dutControlFinish ∈
      (exynosFlashImage uboot fdtSer textBase payload update verify probes upload).cmds := by
  have hE : exynosFlashImage uboot fdtSer textBase payload update verify probes upload =
      { prep := Except.ok p,
        cmds := ExtCmd.dutControlReset ::
          (exynosGo probes upload exynosDownloadList 0 true).2 ++ [ExtCmd.dutControlFinish],
        result := match (exynosGo probes upload exynosDownloadList 0 true).1 with
          | Except.error m => Except.error (FlashErr.cmd m)
          | Except.ok _ => Except.ok true } := by
    unfold exynosFlashImage
    rw [hprep]
  refine ⟨?_, ?_⟩
  · intro hfail
    have hpre : ∀ j, j < 4 * 2 → foundB (probes 0 (0 + j)) = false := by
      intro j hj
      rw [Nat.zero_add]
      exact hfail j (by omega)
    have hw : (waitForUSB (probes 0) 4).found = false := by
      rw [waitForUSB, waitGo_all_failed (probes 0) (4 * 2) 0 0 0 hpre]
    have hgo : exynosGo probes upload exynosDownloadList 0 true =
        (Except.error boardNotFoundMsg, []) := by
      rw [show exynosDownloadList = ("bl1", 0x02021400) ::
        [("bl2", 0x02023400), ("u-boot", 0x43e00000)] from rfl]
      simp only [exynosGo]
      rw [if_pos hw]
      simp
    rw [hE]
    refine ⟨?_, ?_⟩
    · simp [hgo]
    · intro s a
      simp [hgo]
  · rw [hE]
    simp

/-- Witness for claimC6_exynos: with the board never enumerating, the
concrete Exynos run fails with the board-not-found error, uploads
nothing, and still issues the control-line release. -/
theorem claimC6_exynos_witness :
    (exynosFlashImage cUboot cFdtSer 0 cPayload true false c6probes c6upload).result =
      Except.error (FlashErr.cmd boardNotFoundMsg) ∧
    ExtCmd.smdkUsbdl ("bl1") 0x02021400 ∉
      (exynosFlashImage cUboot cFdtSer 0 cPayload true false c6probes c6upload).cmds ∧
    ExtCmd.dutControlFinish ∈
      (exynosFlashImage cUboot cFdtSer 0 cPayload true false c6probes c6upload).cmds := by
  have hprep : prepareFlasher cUboot cFdtSer 0 cPayload true false
      exynosBootType exynosBus = Except.ok cOutE := by rfl
  have hth := claimC6_exynos cUboot cPayload cFdtSer 0 true false c6probes c6upload cOutE hprep
  exact ⟨(hth.1 (by decide)).1, (hth.1 (by decide)).2 ("bl1") 0x02021400, hth.2⟩

/-- Witness for claimC10_exynosSpi at concrete script parameters. -/
theorem claimC10_exynosSpi_witness :
    "run _erase" ∈ getFlashCmds 50 true true exynosBootType 7 exynosBus ∧
    "run _write" ∈ getFlashCmds 50 true true exynosBootType 7 exynosBus ∧
    "time run _update" ∉ getFlashCmds 50 true true exynosBootType 7 exynosBus :=
  ⟨(claimC10_exynosSpi 50 7 true true).2.2.1,
   (claimC10_exynosSpi 50 7 true true).2.2.2.1,
   (claimC10_exynosSpi 50 7 true true).2.1⟩
